import Mathlib

/-!
Verification of the specs-bvh broad-phase collision pipeline (src/src/main.rs).

The embedding models floats as rationals. Entities are records of optional
components (Position, Velocity, Geometry, Collider), mirroring the specs
object store; the world holds the entity list and the tick-scoped spatial
index (`Bvh`), modelled as the list of leaf bounding boxes in insertion
order (the DBVT leaf payload in the source is `()`, so the boxes are all
the index carries).
-/

/-- Planar vector, from `type Vec = Vector<Float>` with `Float = f32`. -/
structure Vec2 where
  x : ℚ
  y : ℚ
deriving DecidableEq, Repr

/-- From `enum Geometry { Circle(f32), Square(f32) }`. -/
inductive Geometry where
  | Circle (radius : ℚ)
  | Square (length : ℚ)
deriving DecidableEq, Repr

/-- One entity of the specs world: each component is optional, as in the
component storages of the source. The `collider` field is `some b` when the
entity has a `Collider { colliding: b }` component, `none` when it lacks
the component. -/
structure Entity where
  position : Option Vec2
  velocity : Option Vec2
  geometry : Option Geometry
  collider : Option Bool
deriving DecidableEq, Repr

/-- Axis-aligned bounding box (ncollide2d `AABB<f32>`): `mins`/`maxs` corners. -/
structure AABB where
  mins : Vec2
  maxs : Vec2
deriving DecidableEq, Repr

/-- The half extents of the bounding shape built in `BvhSys::run` /
`CollideSys::run`: `Ball::new(radius)` for a circle,
`Cuboid::new(Vec::new(length / 2.0, length / 2.0))` for a square. -/
def halfExtents : Geometry → Vec2
  | .Circle radius => ⟨radius, radius⟩
  | .Square length => ⟨length / 2, length / 2⟩

/-- From `aabb(shape, &Isometry::new(pos.vec, 0.0))`: the world-space AABB of the
shape placed at the entity position with zero rotation (center ± half extents
on each axis). -/
def aabbOf (g : Geometry) (c : Vec2) : AABB :=
  ⟨⟨c.x - (halfExtents g).x, c.y - (halfExtents g).y⟩,
   ⟨c.x + (halfExtents g).x, c.y + (halfExtents g).y⟩⟩

/-- From ncollide2d `AABB::intersects`: closed-interval overlap on both axes
(`partial_le(self.mins, other.maxs) && partial_ge(self.maxs, other.mins)`). -/
def intersects (a b : AABB) : Bool :=
  (decide (a.mins.x ≤ b.maxs.x) && decide (b.mins.x ≤ a.maxs.x)) &&
  (decide (a.mins.y ≤ b.maxs.y) && decide (b.mins.y ≤ a.maxs.y))

/-- The world: the entity list (the specs `World`'s live entities in storage
iteration order) plus the `Bvh` resource, modelled as its list of leaf boxes. -/
structure World where
  entities : List Entity
  bvh : List AABB
deriving DecidableEq, Repr

/-- System `CleanSys::run`: joins over `Collider` storage and sets
`collider.colliding = false` on every entity that has the component. -/
def cleanEntity (e : Entity) : Entity :=
  { e with collider := e.collider.map (fun _ => false) }

def cleanSys (w : World) : World :=
  { w with entities := w.entities.map cleanEntity }

/-- The fixed per-tick timestep: the literal `0.05` in `VelocitySys::run`. -/
def dt : ℚ := 5 / 100

/-- System `VelocitySys::run`: for each entity with both `Velocity` and `Position`,
`pos.vec.x += vel.vec.x * 0.05; pos.vec.y += vel.vec.y * 0.05`. Entities
lacking either component are left untouched by the join. -/
def velocityEntity (e : Entity) : Entity :=
  match e.velocity, e.position with
  | some v, some p => { e with position := some ⟨p.x + v.x * dt, p.y + v.y * dt⟩ }
  | _, _ => e

def velocitySys (w : World) : World :=
  { w with entities := w.entities.map velocityEntity }

/-- The leaf an entity contributes to the index, when it qualifies: the
`(&pos, &geometry).join()` in `BvhSys::run` visits exactly the entities
having both components and inserts `DBVTLeaf::new(bv, ())`. -/
def leafOf (e : Entity) : Option AABB :=
  match e.position, e.geometry with
  | some p, some g => some (aabbOf g p)
  | _, _ => none

/-- System `BvhSys::run`: `*bvh = Bvh::new()` discards the previous index, then one
leaf is inserted per entity with both `Position` and `Geometry`. -/
def bvhSys (w : World) : World :=
  { w with bvh := w.entities.filterMap leafOf }

/-- The interference query of `CollideSys::run`: the
`BoundingVolumeInterferencesCollector` collects one element per leaf of the
index whose box intersects `bv`; the system then checks `collisions.len()`. -/
def countInterferences (bvh : List AABB) (bv : AABB) : ℕ :=
  (bvh.filter (fun leaf => intersects leaf bv)).length

/-- System `CollideSys::run`, per entity of the `(&pos, &geometry, &mut collider)`
join: recompute the entity's box, query the index, and
`if collisions.len() > 1 { collider.colliding = true }` (no else branch:
the flag is only ever set, never cleared, by this system). -/
def collideEntity (bvh : List AABB) (e : Entity) : Entity :=
  match e.position, e.geometry, e.collider with
  | some p, some g, some _ =>
      if 1 < countInterferences bvh (aabbOf g p) then
        { e with collider := some true }
      else e
  | _, _, _ => e

def collideSys (w : World) : World :=
  { w with entities := w.entities.map (collideEntity w.bvh) }

/-- The world as seen by `CollideSys` inside a tick: after reset,
integration and index rebuild. -/
def queryState (w : World) : World :=
  bvhSys (velocitySys (cleanSys w))

/-- From `MainState::update`: the dispatcher runs `clean`, then `velocity`
(depends on `clean`), then `bvh` (depends on `velocity`), then `collide`
(depends on `bvh`). -/
def tick (w : World) : World :=
  collideSys (queryState w)

/-- From `MainState::mouse_button_down_event`: builds a new entity with the given
geometry, velocity and position and `Collider::new()` (colliding = false),
and appends it to the world. The random draws of the source are parameters
here. -/
def spawn (w : World) (p v : Vec2) (g : Geometry) : World :=
  { w with entities := w.entities ++ [⟨some p, some v, some g, some false⟩] }

/-- From `MainState::new`: a fresh world holding an empty `Bvh` resource and one
startup entity at (100, 100) with `Geometry::Circle(20.0)` and
`Collider::new()`, and no velocity. -/
def initialWorld : World :=
  ⟨[⟨some ⟨100, 100⟩, none, some (.Circle 20), some false⟩], []⟩

/-- C4: the bounding box of Circle(r) at center c is
[c.x−r, c.x+r] × [c.y−r, c.y+r], and the bounding box of Square(s) at
center c is [c.x−s/2, c.x+s/2] × [c.y−s/2, c.y+s/2] (center-anchored);
the computation is a pure function of (geometry, position). -/
theorem c4_bounding_boxes (c : Vec2) (r s : ℚ) :
    aabbOf (.Circle r) c = ⟨⟨c.x - r, c.y - r⟩, ⟨c.x + r, c.y + r⟩⟩ ∧
    aabbOf (.Square s) c = ⟨⟨c.x - s / 2, c.y - s / 2⟩, ⟨c.x + s / 2, c.y + s / 2⟩⟩ :=
  ⟨rfl, rfl⟩

/-! Component-preservation lemmas for the individual systems -/

theorem cleanEntity_position (e : Entity) : (cleanEntity e).position = e.position := rfl

theorem cleanEntity_velocity (e : Entity) : (cleanEntity e).velocity = e.velocity := rfl

theorem cleanEntity_geometry (e : Entity) : (cleanEntity e).geometry = e.geometry := rfl

theorem velocityEntity_velocity (e : Entity) : (velocityEntity e).velocity = e.velocity := by
  rcases e with ⟨p, v, g, c⟩
  cases v <;> cases p <;> rfl

theorem velocityEntity_geometry (e : Entity) : (velocityEntity e).geometry = e.geometry := by
  rcases e with ⟨p, v, g, c⟩
  cases v <;> cases p <;> rfl

theorem velocityEntity_collider (e : Entity) : (velocityEntity e).collider = e.collider := by
  rcases e with ⟨p, v, g, c⟩
  cases v <;> cases p <;> rfl

theorem collideEntity_position (bvh : List AABB) (e : Entity) :
    (collideEntity bvh e).position = e.position := by
  rcases e with ⟨p, v, g, c⟩
  cases p <;> cases g <;> cases c <;> unfold collideEntity <;>
    first
      | rfl
      | (dsimp only; split <;> rfl)

theorem collideEntity_velocity (bvh : List AABB) (e : Entity) :
    (collideEntity bvh e).velocity = e.velocity := by
  rcases e with ⟨p, v, g, c⟩
  cases p <;> cases g <;> cases c <;> unfold collideEntity <;>
    first
      | rfl
      | (dsimp only; split <;> rfl)

theorem collideEntity_geometry (bvh : List AABB) (e : Entity) :
    (collideEntity bvh e).geometry = e.geometry := by
  rcases e with ⟨p, v, g, c⟩
  cases p <;> cases g <;> cases c <;> unfold collideEntity <;>
    first
      | rfl
      | (dsimp only; split <;> rfl)

/-- The collider flag `CollideSys` leaves on an entity it joins over: the old
flag, or-ed with the query outcome (the system only ever sets the flag). -/
theorem collideEntity_flag (bvh : List AABB) (e : Entity) (p : Vec2) (g : Geometry) (b : Bool)
    (hp : e.position = some p) (hg : e.geometry = some g) (hc : e.collider = some b) :
    (collideEntity bvh e).collider =
      some (b || decide (1 < countInterferences bvh (aabbOf g p))) := by
  rcases e with ⟨p', v, g', c⟩
  dsimp only at hp hg hc
  subst hp hg hc
  by_cases h : 1 < countInterferences bvh (aabbOf g p) <;> simp [collideEntity, h]

theorem queryState_entities (w : World) :
    (queryState w).entities = (w.entities.map cleanEntity).map velocityEntity := rfl

theorem queryState_bvh (w : World) :
    (queryState w).bvh = (queryState w).entities.filterMap leafOf := rfl

theorem tick_entities (w : World) :
    (tick w).entities = (queryState w).entities.map (collideEntity (queryState w).bvh) := rfl

/-- After the reset and integration steps the collider flag of every entity
that has one is false (reset wrote `false`, `VelocitySys`/`BvhSys` do not
touch the flag). -/
theorem queryState_collider_false (w : World) (i : ℕ) (e : Entity)
    (he : (queryState w).entities[i]? = some e) (hc : e.collider ≠ none) :
    e.collider = some false := by
  rw [queryState_entities, List.getElem?_map, List.getElem?_map] at he
  cases ha : w.entities[i]? with
  | none => rw [ha] at he; exact absurd he (by simp)
  | some a =>
      rw [ha] at he
      simp only [Option.map_some'] at he
      obtain rfl := Option.some_inj.mp he
      rw [velocityEntity_collider] at hc ⊢
      rcases h : a.collider with _ | b
      · exact absurd (by simp [cleanEntity, h]) hc
      · simp [cleanEntity, h]

/-- C5: for every entity possessing both Position and Velocity, one
integrator step (`VelocitySys`) replaces its position by position +
velocity × Δt component-wise, with the fixed constant Δt = 0.05; an entity
lacking Velocity has its position (indeed its whole state) unchanged. -/
theorem c5_integration (w : World) (i : ℕ) (e : Entity) (he : w.entities[i]? = some e) :
    (∀ p v, e.position = some p → e.velocity = some v →
       (velocitySys w).entities[i]? =
         some { e with position := some ⟨p.x + v.x * dt, p.y + v.y * dt⟩ }) ∧
    (e.velocity = none → (velocitySys w).entities[i]? = some e) := by
  constructor
  · intro p v hp hv
    rw [velocitySys, List.getElem?_map, he, Option.map_some']
    rcases e with ⟨p', v', g, c⟩
    dsimp only at hp hv
    subst hp hv
    rfl
  · intro hv
    rw [velocitySys, List.getElem?_map, he, Option.map_some']
    rcases e with ⟨p', v', g, c⟩
    dsimp only at hv
    subst hv
    cases p' <;> rfl

theorem c5_integration_witness :
    (velocitySys (spawn initialWorld ⟨1, 2⟩ ⟨20, 40⟩ (.Circle 3))).entities[1]? =
      some ⟨some ⟨2, 4⟩, some ⟨20, 40⟩, some (.Circle 3), some false⟩ := by
  rw [(c5_integration (spawn initialWorld ⟨1, 2⟩ ⟨20, 40⟩ (.Circle 3)) 1
        ⟨some ⟨1, 2⟩, some ⟨20, 40⟩, some (.Circle 3), some false⟩ rfl).1
      ⟨1, 2⟩ ⟨20, 40⟩ rfl rfl]
  simp only [Option.some.injEq, Entity.mk.injEq, Vec2.mk.injEq]
  norm_num [dt]

/-- C3: a tick runs exactly reset → integrate → rebuild index → query, in
that order (the dispatcher dependencies force the sequence), and the reset
step, before integration, leaves every entity that has a Collider flag with
the flag false. -/
theorem c3_tick_order (w : World) :
    tick w = collideSys (bvhSys (velocitySys (cleanSys w))) ∧
    ∀ e ∈ (cleanSys w).entities, e.collider = none ∨ e.collider = some false := by
  refine ⟨rfl, ?_⟩
  intro e he
  simp only [cleanSys, List.mem_map] at he
  obtain ⟨a, -, rfl⟩ := he
  cases h : a.collider <;> simp [cleanEntity, h]

theorem c3_tick_order_witness :
    (⟨some ⟨100, 100⟩, none, some (.Circle 20), some false⟩ : Entity).collider = none ∨
    (⟨some ⟨100, 100⟩, none, some (.Circle 20), some false⟩ : Entity).collider = some false :=
  (c3_tick_order initialWorld).2 _ (by decide)

/-- The number of leaves the builder inserts equals the number of entities
carrying both Position and Geometry. -/
theorem length_filterMap_leafOf (l : List Entity) :
    (l.filterMap leafOf).length =
      (l.filter (fun e => e.position.isSome && e.geometry.isSome)).length := by
  induction l with
  | nil => rfl
  | cons a t ih =>
      rcases a with ⟨p, v, g, c⟩
      cases p <;> cases g <;>
        simp [leafOf, List.filterMap_cons, List.filter_cons, ih]

/-- C6: the builder discards the previous index entirely (the rebuilt index
does not depend on the old one) and each entity with both Position and
Geometry contributes exactly one leaf box to the new index: the leaf count
equals the number of qualifying entities, and each qualifying entity's box
is present. -/
theorem c6_index_rebuild (w : World) (old : List AABB) :
    (bvhSys { w with bvh := old }).bvh = (bvhSys w).bvh ∧
    (bvhSys w).bvh.length =
      (w.entities.filter (fun e => e.position.isSome && e.geometry.isSome)).length ∧
    ∀ e ∈ w.entities, ∀ p g, e.position = some p → e.geometry = some g →
      aabbOf g p ∈ (bvhSys w).bvh := by
  refine ⟨rfl, length_filterMap_leafOf w.entities, ?_⟩
  intro e he p g hp hg
  exact List.mem_filterMap.mpr ⟨e, he, by rw [leafOf, hp, hg]⟩

theorem c6_index_rebuild_witness :
    aabbOf (.Circle 20) ⟨100, 100⟩ ∈ (bvhSys initialWorld).bvh :=
  (c6_index_rebuild initialWorld []).2.2
    ⟨some ⟨100, 100⟩, none, some (.Circle 20), some false⟩ (by decide) _ _ rfl rfl

/-- C10: no system of the tick ever modifies a Velocity value: every
entity's velocity component (including its absence) is the same after a
full tick as before it. -/
theorem c10_velocity_constant (w : World) (i : ℕ) :
    (tick w).entities[i]?.map Entity.velocity = w.entities[i]?.map Entity.velocity := by
  rw [tick_entities, queryState_entities, List.getElem?_map, List.getElem?_map,
    List.getElem?_map]
  cases ha : w.entities[i]? with
  | none => rfl
  | some a =>
      simp only [Option.map_some']
      rw [collideEntity_velocity, velocityEntity_velocity, cleanEntity_velocity]

/-- C8 counterexample: not every entity is created by a user spawn action —
at startup, before any spawn event has been delivered, the world already
contains one entity (created by `MainState::new`). -/
theorem c8_counterexample :
    initialWorld.entities.length = 1 ∧
    initialWorld.entities[0]? =
      some ⟨some ⟨100, 100⟩, none, some (.Circle 20), some false⟩ := by
  exact ⟨rfl, rfl⟩

/-- C8 amended: the world starts with one entity created at startup
initialization; thereafter the entity set never shrinks and grows only via
spawn events: a tick preserves the entity count, and a spawn event appends
exactly one new entity at the end of the list. -/
theorem c8_entity_persistence (w : World) (p v : Vec2) (g : Geometry) :
    (tick w).entities.length = w.entities.length ∧
    (spawn w p v g).entities = w.entities ++ [⟨some p, some v, some g, some false⟩] ∧
    initialWorld.entities.length = 1 := by
  refine ⟨?_, rfl, rfl⟩
  rw [tick_entities, queryState_entities]
  simp

/-- The size parameter of a geometry: the circle radius or square side. -/
def geomSize : Geometry → ℚ
  | .Circle radius => radius
  | .Square length => length

/-- A box built from a geometry of nonnegative size overlaps itself
(the closed-interval test is reflexive on well-formed boxes). -/
theorem intersects_self (g : Geometry) (p : Vec2) (h : 0 ≤ geomSize g) :
    intersects (aabbOf g p) (aabbOf g p) = true := by
  cases g <;>
    simp only [intersects, aabbOf, halfExtents, geomSize, Bool.and_eq_true,
      decide_eq_true_eq] at h ⊢ <;>
    refine ⟨⟨by linarith, by linarith⟩, by linarith, by linarith⟩

/-- The closed-interval box-overlap test is symmetric. -/
theorem intersects_symm (a b : AABB) : intersects a b = intersects b a := by
  simp only [intersects]
  by_cases h1 : a.mins.x ≤ b.maxs.x <;> by_cases h2 : b.mins.x ≤ a.maxs.x <;>
    by_cases h3 : a.mins.y ≤ b.maxs.y <;> by_cases h4 : b.mins.y ≤ a.maxs.y <;>
    simp [h1, h2, h3, h4]

theorem mem_of_getElem?_some {α : Type} {l : List α} {i : ℕ} {a : α}
    (h : l[i]? = some a) : a ∈ l := by
  obtain ⟨hlt, rfl⟩ := List.getElem?_eq_some.mp h
  exact List.getElem_mem hlt

theorem countInterferences_eq_countP (bvh : List AABB) (bv : AABB) :
    countInterferences bvh bv = bvh.countP (fun leaf => intersects leaf bv) :=
  (List.countP_eq_length_filter ..).symm

/-- Counting matching leaves of the built index is counting the entities
whose leaf matches. -/
theorem countP_filterMap_leafOf (l : List Entity) (q : AABB → Bool) :
    (l.filterMap leafOf).countP q =
      l.countP (fun e => ((leafOf e).map q).getD false) := by
  induction l with
  | nil => rfl
  | cons a t ih =>
      cases h : leafOf a <;>
        simp [List.filterMap_cons, h, List.countP_cons, ih]

/-- A list holding matching elements at two distinct indices has at least
two matches. -/
theorem two_le_countP {α : Type} (l : List α) (q : α → Bool) (i j : ℕ) (hij : i < j)
    (hi : l[i]?.map q = some true) (hj : l[j]?.map q = some true) :
    2 ≤ l.countP q := by
  induction l generalizing i j with
  | nil => simp at hj
  | cons a t ih =>
      obtain ⟨k, rfl⟩ : ∃ k, j = k + 1 := ⟨j - 1, by omega⟩
      rw [List.getElem?_cons_succ] at hj
      cases i with
      | zero =>
          rw [List.getElem?_cons_zero, Option.map_some'] at hi
          have ha : q a = true := by simpa using hi
          have ht : 0 < t.countP q := by
            rw [List.countP_pos_iff]
            cases hk : t[k]? with
            | none => rw [hk] at hj; simp at hj
            | some b =>
                rw [hk, Option.map_some'] at hj
                exact ⟨b, mem_of_getElem?_some hk, by simpa using hj⟩
          rw [List.countP_cons, ha, if_pos rfl]
          omega
      | succ n =>
          rw [List.getElem?_cons_succ] at hi
          have := ih n k (by omega) hi hj
          rw [List.countP_cons]
          omega

/-- C2: for every entity with Position, Geometry and a Collider flag, its
flag at the end of a complete tick is true iff the index query for boxes
overlapping its own (post-integration) box returns more than one element;
and the entity's own box is always a member of that query result (it was
inserted this tick and the closed overlap test is reflexive on boxes of
nonnegative size, as guaranteed at spawn). -/
theorem c2_flag_iff_query (w : World) (i : ℕ) (e : Entity) (p : Vec2) (g : Geometry)
    (he : (queryState w).entities[i]? = some e)
    (hp : e.position = some p) (hg : e.geometry = some g) (hc : e.collider ≠ none)
    (hsize : 0 ≤ geomSize g) :
    ((tick w).entities[i]?.map Entity.collider =
      some (some (decide (1 < countInterferences (queryState w).bvh (aabbOf g p))))) ∧
    aabbOf g p ∈ (queryState w).bvh.filter
      (fun leaf => intersects leaf (aabbOf g p)) := by
  have hfalse : e.collider = some false := queryState_collider_false w i e he hc
  constructor
  · rw [tick_entities, List.getElem?_map, he, Option.map_some', Option.map_some',
      collideEntity_flag (queryState w).bvh e p g false hp hg hfalse, Bool.false_or]
  · refine List.mem_filter.mpr ⟨?_, intersects_self g p hsize⟩
    rw [queryState_bvh]
    exact List.mem_filterMap.mpr
      ⟨e, mem_of_getElem?_some he, by rw [leafOf, hp, hg]⟩

theorem c2_flag_iff_query_witness :
    ((tick initialWorld).entities[0]?.map Entity.collider = some (some false)) ∧
    aabbOf (.Circle 20) ⟨100, 100⟩ ∈
      (queryState initialWorld).bvh.filter
        (fun leaf => intersects leaf (aabbOf (.Circle 20) ⟨100, 100⟩)) := by
  have h := c2_flag_iff_query initialWorld 0
    ⟨some ⟨100, 100⟩, none, some (.Circle 20), some false⟩ ⟨100, 100⟩ (.Circle 20)
    rfl rfl rfl (by simp) (by norm_num [geomSize])
  refine ⟨?_, h.2⟩
  rw [h.1]
  have hbvh : (queryState initialWorld).bvh = [aabbOf (.Circle 20) ⟨100, 100⟩] := rfl
  have hcount : countInterferences (queryState initialWorld).bvh
      (aabbOf (.Circle 20) ⟨100, 100⟩) = 1 := by
    rw [hbvh]
    norm_num [countInterferences, List.filter_cons, intersects, aabbOf, halfExtents]
  rw [hcount]
  rfl

/-- An entity without a Collider component is left untouched by the
interference query system. -/
theorem collideEntity_no_collider (bvh : List AABB) (e : Entity) (hc : e.collider = none) :
    collideEntity bvh e = e := by
  rcases e with ⟨p, v, g, c⟩
  dsimp only at hc
  subst hc
  cases p <;> cases g <;> rfl

/-- C9: an entity with Position and Geometry but no Collider flag still
contributes its bounding box to the spatial index (so it can set other
entities' flags as an interferer), but the query phase never touches it:
its whole state, in particular the absence of a collision report, is
unchanged from the moment the index was built to the end of the tick. -/
theorem c9_no_collider_still_indexed (w : World) (i : ℕ) (e : Entity) (p : Vec2)
    (g : Geometry)
    (he : (queryState w).entities[i]? = some e)
    (hp : e.position = some p) (hg : e.geometry = some g) (hc : e.collider = none) :
    aabbOf g p ∈ (queryState w).bvh ∧
    (tick w).entities[i]? = some e ∧
    (tick w).entities[i]?.map Entity.collider = some none := by
  have hmem : aabbOf g p ∈ (queryState w).bvh := by
    rw [queryState_bvh]
    exact List.mem_filterMap.mpr
      ⟨e, mem_of_getElem?_some he, by rw [leafOf, hp, hg]⟩
  have hsame : (tick w).entities[i]? = some e := by
    rw [tick_entities, List.getElem?_map, he, Option.map_some',
      collideEntity_no_collider (queryState w).bvh e hc]
  exact ⟨hmem, hsame, by rw [hsame, Option.map_some', hc]⟩

theorem c9_no_collider_still_indexed_witness :
    aabbOf (.Square 2) ⟨0, 0⟩ ∈
      (queryState ⟨[⟨some ⟨0, 0⟩, none, some (.Square 2), none⟩], []⟩).bvh ∧
    (tick ⟨[⟨some ⟨0, 0⟩, none, some (.Square 2), none⟩], []⟩).entities[0]? =
      some ⟨some ⟨0, 0⟩, none, some (.Square 2), none⟩ ∧
    (tick ⟨[⟨some ⟨0, 0⟩, none, some (.Square 2), none⟩], []⟩).entities[0]?.map
      Entity.collider = some none :=
  c9_no_collider_still_indexed ⟨[⟨some ⟨0, 0⟩, none, some (.Square 2), none⟩], []⟩ 0
    ⟨some ⟨0, 0⟩, none, some (.Square 2), none⟩ ⟨0, 0⟩ (.Square 2) rfl rfl rfl rfl

/-- An entity as the spawn handler would create a circle with no motion:
Position, Circle geometry, a fresh (false) Collider flag, no Velocity, so
its position is fixed across the tick. -/
def circEnt (c : Vec2) (r : ℚ) : Entity :=
  ⟨some c, none, some (.Circle r), some false⟩

/-- A world holding exactly two circle entities. -/
def twoCircles (c1 c2 : Vec2) (r1 r2 : ℚ) : World :=
  ⟨[circEnt c1 r1, circEnt c2 r2], []⟩

/-- In a two-circle world, a tick sets each circle's flag to exactly the
result of the box-overlap test against the other circle's box. -/
theorem twoCircles_flags (c1 c2 : Vec2) (r1 r2 : ℚ) (h1 : 0 ≤ r1) (h2 : 0 ≤ r2) :
    (tick (twoCircles c1 c2 r1 r2)).entities.map Entity.collider =
      [some (intersects (aabbOf (.Circle r2) c2) (aabbOf (.Circle r1) c1)),
       some (intersects (aabbOf (.Circle r1) c1) (aabbOf (.Circle r2) c2))] := by
  have hs1 : intersects (aabbOf (.Circle r1) c1) (aabbOf (.Circle r1) c1) = true :=
    intersects_self _ _ h1
  have hs2 : intersects (aabbOf (.Circle r2) c2) (aabbOf (.Circle r2) c2) = true :=
    intersects_self _ _ h2
  have hent : (tick (twoCircles c1 c2 r1 r2)).entities =
      [collideEntity [aabbOf (.Circle r1) c1, aabbOf (.Circle r2) c2] (circEnt c1 r1),
       collideEntity [aabbOf (.Circle r1) c1, aabbOf (.Circle r2) c2] (circEnt c2 r2)] := rfl
  have hcnt1 : countInterferences [aabbOf (.Circle r1) c1, aabbOf (.Circle r2) c2]
      (aabbOf (.Circle r1) c1) =
      1 + (if intersects (aabbOf (.Circle r2) c2) (aabbOf (.Circle r1) c1) = true
           then 1 else 0) := by
    simp only [countInterferences, List.filter_cons, List.filter_nil, hs1, if_pos]
    cases h : intersects (aabbOf (.Circle r2) c2) (aabbOf (.Circle r1) c1) <;> simp [h]
  have hcnt2 : countInterferences [aabbOf (.Circle r1) c1, aabbOf (.Circle r2) c2]
      (aabbOf (.Circle r2) c2) =
      1 + (if intersects (aabbOf (.Circle r1) c1) (aabbOf (.Circle r2) c2) = true
           then 1 else 0) := by
    simp only [countInterferences, List.filter_cons, List.filter_nil, hs2, if_pos]
    cases h : intersects (aabbOf (.Circle r1) c1) (aabbOf (.Circle r2) c2) <;> simp [h]
  have hf1 : (collideEntity [aabbOf (.Circle r1) c1, aabbOf (.Circle r2) c2]
      (circEnt c1 r1)).collider =
      some (intersects (aabbOf (.Circle r2) c2) (aabbOf (.Circle r1) c1)) := by
    rw [collideEntity_flag _ _ c1 (.Circle r1) false rfl rfl rfl, Bool.false_or, hcnt1]
    cases h : intersects (aabbOf (.Circle r2) c2) (aabbOf (.Circle r1) c1) <;> simp [h]
  have hf2 : (collideEntity [aabbOf (.Circle r1) c1, aabbOf (.Circle r2) c2]
      (circEnt c2 r2)).collider =
      some (intersects (aabbOf (.Circle r1) c1) (aabbOf (.Circle r2) c2)) := by
    rw [collideEntity_flag _ _ c2 (.Circle r2) false rfl rfl rfl, Bool.false_or, hcnt2]
    cases h : intersects (aabbOf (.Circle r1) c1) (aabbOf (.Circle r2) c2) <;> simp [h]
  rw [hent, List.map_cons, List.map_cons, List.map_nil, hf1, hf2]

/-- C1 counterexample: circles of radius 2 centered at (0,0) and (3,4) are
at Euclidean distance 5 > 4 = r1 + r2 (25 > 16 after squaring both sides),
yet after a tick both entities are flagged as overlapping: the code flags
bounding-box interference, not circle interference. -/
theorem c1_counterexample :
    ((tick (twoCircles ⟨0, 0⟩ ⟨3, 4⟩ 2 2)).entities.map Entity.collider =
      [some true, some true]) ∧
    ¬ (((3 : ℚ) - 0) ^ 2 + ((4 : ℚ) - 0) ^ 2 ≤ ((2 : ℚ) + 2) ^ 2) := by
  constructor
  · rw [twoCircles_flags ⟨0, 0⟩ ⟨3, 4⟩ 2 2 (by norm_num) (by norm_num)]
    norm_num [intersects, aabbOf, halfExtents]
  · norm_num

/-- C1 amended: for a tick over two fixed circle entities (Position, Circle
geometry, Collider, no velocity) of positive radii r1 and r2 centered at c1
and c2, both entities are flagged as overlapping at the end of the tick iff
their bounding boxes overlap, i.e. iff |c1.x − c2.x| ≤ r1 + r2 and
|c1.y − c2.y| ≤ r1 + r2 (Chebyshev distance, not Euclidean distance). -/
theorem c1_amended (c1 c2 : Vec2) (r1 r2 : ℚ) (h1 : 0 < r1) (h2 : 0 < r2) :
    ((tick (twoCircles c1 c2 r1 r2)).entities.map Entity.collider =
      [some true, some true]) ↔
    (|c1.x - c2.x| ≤ r1 + r2 ∧ |c1.y - c2.y| ≤ r1 + r2) := by
  rw [twoCircles_flags c1 c2 r1 r2 (le_of_lt h1) (le_of_lt h2),
    intersects_symm (aabbOf (.Circle r2) c2) (aabbOf (.Circle r1) c1)]
  simp only [List.cons.injEq, Option.some.injEq, and_true, and_self,
    intersects, aabbOf, halfExtents, Bool.and_eq_true, decide_eq_true_eq,
    abs_le]
  constructor
  · rintro ⟨⟨hx1, hx2⟩, hy1, hy2⟩
    exact ⟨⟨by linarith, by linarith⟩, by linarith, by linarith⟩
  · rintro ⟨⟨hx1, hx2⟩, hy1, hy2⟩
    exact ⟨⟨by linarith, by linarith⟩, by linarith, by linarith⟩

theorem c1_amended_witness :
    (tick (twoCircles ⟨0, 0⟩ ⟨1, 0⟩ 1 1)).entities.map Entity.collider =
      [some true, some true] := by
  rw [c1_amended ⟨0, 0⟩ ⟨1, 0⟩ 1 1 (by norm_num) (by norm_num)]
  constructor <;> rw [abs_le] <;> constructor <;> norm_num

/-- If two distinct entities of the build list both qualify for the index
and box `b`'s own leaf as well as the other's leaf overlap `aabbOf ga pa`,
the query for that box returns at least two leaves. -/
theorem two_le_countInterferences (l : List Entity) (i j : ℕ) (hij : i ≠ j)
    (a b : Entity) (pa pb : Vec2) (ga gb : Geometry)
    (hea : l[i]? = some a) (heb : l[j]? = some b)
    (hpa : a.position = some pa) (hga : a.geometry = some ga)
    (hpb : b.position = some pb) (hgb : b.geometry = some gb)
    (hsa : 0 ≤ geomSize ga)
    (hover : intersects (aabbOf gb pb) (aabbOf ga pa) = true) :
    2 ≤ countInterferences (l.filterMap leafOf) (aabbOf ga pa) := by
  rw [countInterferences_eq_countP, countP_filterMap_leafOf]
  have hqa : ((leafOf a).map (fun leaf => intersects leaf (aabbOf ga pa))).getD false =
      true := by
    rw [leafOf, hpa, hga, Option.map_some', Option.getD_some]
    exact intersects_self ga pa hsa
  have hqb : ((leafOf b).map (fun leaf => intersects leaf (aabbOf ga pa))).getD false =
      true := by
    rw [leafOf, hpb, hgb, Option.map_some', Option.getD_some]
    exact hover
  rcases lt_or_gt_of_ne hij with h | h
  · exact two_le_countP l _ i j h
      (by rw [hea, Option.map_some', hqa]) (by rw [heb, Option.map_some', hqb])
  · exact two_le_countP l _ j i h
      (by rw [heb, Option.map_some', hqb]) (by rw [hea, Option.map_some', hqa])

/-- C7: for two distinct entities that each carry Position, Geometry and a
Collider flag (of nonnegative geometry size, as every spawned geometry is),
if their post-integration bounding boxes overlap then BOTH entities' flags
are true at the end of the tick: the flag outcome is symmetric, and each
entity's flag is computed from the same completed index, independent of the
order in which entities are queried. -/
theorem c7_overlap_symmetric (w : World) (i j : ℕ) (a b : Entity)
    (pa pb : Vec2) (ga gb : Geometry) (hij : i ≠ j)
    (hea : (queryState w).entities[i]? = some a)
    (heb : (queryState w).entities[j]? = some b)
    (hpa : a.position = some pa) (hga : a.geometry = some ga) (hca : a.collider ≠ none)
    (hpb : b.position = some pb) (hgb : b.geometry = some gb) (hcb : b.collider ≠ none)
    (hsa : 0 ≤ geomSize ga) (hsb : 0 ≤ geomSize gb)
    (hover : intersects (aabbOf ga pa) (aabbOf gb pb) = true) :
    (tick w).entities[i]?.map Entity.collider = some (some true) ∧
    (tick w).entities[j]?.map Entity.collider = some (some true) := by
  have hfa : a.collider = some false := queryState_collider_false w i a hea hca
  have hfb : b.collider = some false := queryState_collider_false w j b heb hcb
  have hcnta : 2 ≤ countInterferences (queryState w).bvh (aabbOf ga pa) := by
    rw [queryState_bvh]
    exact two_le_countInterferences _ i j hij a b pa pb ga gb hea heb hpa hga hpb hgb
      hsa ((intersects_symm _ _).trans hover)
  have hcntb : 2 ≤ countInterferences (queryState w).bvh (aabbOf gb pb) := by
    rw [queryState_bvh]
    exact two_le_countInterferences _ j i (Ne.symm hij) b a pb pa gb ga heb hea hpb hgb
      hpa hga hsb hover
  constructor
  · rw [tick_entities, List.getElem?_map, hea, Option.map_some', Option.map_some',
      collideEntity_flag _ a pa ga false hpa hga hfa, Bool.false_or,
      decide_eq_true (by omega : 1 < countInterferences (queryState w).bvh (aabbOf ga pa))]
  · rw [tick_entities, List.getElem?_map, heb, Option.map_some', Option.map_some',
      collideEntity_flag _ b pb gb false hpb hgb hfb, Bool.false_or,
      decide_eq_true (by omega : 1 < countInterferences (queryState w).bvh (aabbOf gb pb))]

theorem c7_overlap_symmetric_witness :
    (tick ⟨[⟨some ⟨0, 0⟩, none, some (.Square 2), some false⟩,
            ⟨some ⟨1, 1⟩, none, some (.Square 2), some false⟩], []⟩).entities[0]?.map
      Entity.collider = some (some true) ∧
    (tick ⟨[⟨some ⟨0, 0⟩, none, some (.Square 2), some false⟩,
            ⟨some ⟨1, 1⟩, none, some (.Square 2), some false⟩], []⟩).entities[1]?.map
      Entity.collider = some (some true) :=
  c7_overlap_symmetric
    ⟨[⟨some ⟨0, 0⟩, none, some (.Square 2), some false⟩,
      ⟨some ⟨1, 1⟩, none, some (.Square 2), some false⟩], []⟩ 0 1
    ⟨some ⟨0, 0⟩, none, some (.Square 2), some false⟩
    ⟨some ⟨1, 1⟩, none, some (.Square 2), some false⟩
    ⟨0, 0⟩ ⟨1, 1⟩ (.Square 2) (.Square 2) (by decide) rfl rfl rfl rfl (by simp)
    rfl rfl (by simp) (by norm_num [geomSize]) (by norm_num [geomSize])
    (by norm_num [intersects, aabbOf, halfExtents])
